import Mathlib

/-!
Shallow embedding of the multi-source weather aggregation engine:
the three provider adapters, the fan-out coordinator, the accuracy
scorer, the selector, and the location resolver fallback, together
with the in-memory storage lookups they use.

Numbers are modelled as exact rationals (JavaScript numbers at the
values the code manipulates); `Math.round` is floor of x + 1/2, which
is JavaScript's rounds-half-up semantics. A JavaScript value that may
be NaN (such as `Number(undefined)`) is modelled by `JSNum`. Fallible
code paths (a thrown exception caught by a try/catch) are modelled
with `Option`/`Except`. Locale-dependent date/time label formatting
(`toLocaleTimeString`, `toLocaleDateString`) is abstracted by simple
string functions, since no property depends on the label text.
-/

/-- JavaScript `Math.round`: rounds half-up, i.e. floor of q + 1/2. -/
def jround (q : ℚ) : ℤ := ⌊q + 1/2⌋

/-- A JavaScript number that may be NaN (e.g. `Number(undefined)`). -/
inductive JSNum where
  | nan : JSNum
  | num : ℚ → JSNum
deriving DecidableEq

/-- JavaScript `x || d` for a numeric object-lookup result: `undefined` and `0` are falsy. -/
def jsOrNum (v : Option ℚ) (d : ℚ) : ℚ :=
  match v with
  | some q => if q = 0 then d else q
  | none => d

/-- Lowercasing as used by `toLowerCase()`, mapped over the characters. -/
def jsToLower (s : String) : String := ⟨s.data.map Char.toLower⟩

/-- Boolean test that `l` starts with `sub` (character lists). -/
def beginsWith : List Char → List Char → Bool
  | [], _ => true
  | _ :: _, [] => false
  | a :: as, b :: bs => a == b && beginsWith as bs

/-- Boolean test that `sub` occurs contiguously inside `l`: JavaScript `l.includes(sub)`. -/
def containsSub (sub : List Char) : List Char → Bool
  | [] => sub.isEmpty
  | c :: rest => beginsWith sub (c :: rest) || containsSub sub rest

/-- JavaScript `s.includes(sub)` on strings. -/
def jsIncludes (s sub : String) : Bool := containsSub sub.data s.data

/-! ## Canonical data model (shared/schema.ts shapes as produced by the adapters) -/

/-- Icon identifiers are strings for two providers and numeric codes for the third. -/
inductive IconVal where
  | str : String → IconVal
  | num : ℚ → IconVal
deriving DecidableEq

/-- Current conditions block of a normalized Weather Record. -/
structure CurrentConditions where
  temperature : ℚ
  condition : String
  description : String
  humidity : ℚ
  windSpeed : ℚ
  windDirection : ℚ
  visibility : ℚ
  feelsLike : ℚ
  uvIndex : ℚ
  pressure : ℚ
deriving DecidableEq

/-- One entry of the hourly forecast sequence. -/
structure HourlyPoint where
  time : String
  temperature : ℚ
  condition : String
  precipitation : ℚ
  icon : IconVal
deriving DecidableEq

/-- One entry of the daily forecast sequence. -/
structure DailyPoint where
  day : String
  condition : String
  description : String
  highTemp : ℚ
  lowTemp : ℚ
  precipitation : ℚ
  icon : IconVal
deriving DecidableEq

/-- Canonical normalized Weather Record produced by an adapter. -/
structure WeatherRecord where
  source : String
  location : String
  latitude : ℚ
  longitude : ℚ
  currentWeather : CurrentConditions
  hourlyForecast : List HourlyPoint
  dailyForecast : List DailyPoint
deriving DecidableEq

/-- Weather Record annotated with its accuracy score (second pass). -/
structure ScoredWeather extends WeatherRecord where
  accuracy : ℚ
deriving DecidableEq

/-- Cached Location entry of MemStorage (server/storage.ts). -/
structure Location where
  id : String
  name : String
  latitude : ℚ
  longitude : ℚ
  country : Option String
  state : Option String
deriving DecidableEq

/-! ## MemStorage lookups (server/storage.ts) -/

/-- Static accuracy table `accuracyMap` of `MemStorage.getWeatherAccuracy`. -/
def accuracyMap (source : String) : Option ℚ :=
  if source = "openweathermap" then some (94/100)
  else if source = "accuweather" then some (89/100)
  else if source = "weatherapi" then some (87/100)
  else none

/-- MemStorage.getWeatherAccuracy: `accuracyMap[source] || 0.85`. -/
def getWeatherAccuracy (source location : String) : ℚ :=
  jsOrNum (accuracyMap source) (85/100)

/-- MemStorage.getLocationByCoords: first cached Location whose latitude and
longitude both differ from the query by less than 0.01 degrees. -/
def getLocationByCoords (locations : List Location) (lat lon : ℚ) : Option Location :=
  locations.find? (fun loc =>
    decide (|loc.latitude - lat| < 1/100) && decide (|loc.longitude - lon| < 1/100))

/-- MemStorage.searchLocations: case-insensitive substring filter over
name, country and state (the optional chaining on country/state makes a
missing field contribute `false`). -/
def searchLocations (locations : List Location) (query : String) : List Location :=
  let lowercaseQuery := jsToLower query
  locations.filter (fun loc =>
    jsIncludes (jsToLower loc.name) lowercaseQuery ||
    (match loc.country with
     | some c => jsIncludes (jsToLower c) lowercaseQuery
     | none => false) ||
    (match loc.state with
     | some s => jsIncludes (jsToLower s) lowercaseQuery
     | none => false))

/-! ## Provider response shapes (the fields the route code reads) -/

/-- One element of OpenWeatherMap's `weather` array. -/
structure OWMWeatherDesc where
  main : String
  description : String
  icon : String
deriving DecidableEq

/-- OpenWeatherMap `main` block. -/
structure OWMMain where
  temp : ℚ
  feels_like : ℚ
  temp_min : ℚ
  temp_max : ℚ
  pressure : ℚ
  humidity : ℚ
deriving DecidableEq

/-- OpenWeatherMap `wind` block. -/
structure OWMWind where
  speed : ℚ
  deg : ℚ
deriving DecidableEq

/-- OpenWeatherMap `sys` block. -/
structure OWMSys where
  country : String
deriving DecidableEq

/-- OpenWeatherMap current-weather response. -/
structure OWMCurrent where
  name : String
  sys : OWMSys
  main : OWMMain
  weather : List OWMWeatherDesc
  wind : OWMWind
  visibility : ℚ
deriving DecidableEq

/-- One entry of OpenWeatherMap's forecast `list`; `pop` may be absent. -/
structure OWMForecastItem where
  dt : ℤ
  main : OWMMain
  weather : List OWMWeatherDesc
  pop : Option ℚ
deriving DecidableEq

/-- OpenWeatherMap forecast response. -/
structure OWMForecast where
  list : List OWMForecastItem
deriving DecidableEq

/-- WeatherAPI `condition` block. -/
structure WAPICondition where
  text : String
  icon : String
deriving DecidableEq

/-- WeatherAPI `location` block. -/
structure WAPILocation where
  name : String
  country : String
deriving DecidableEq

/-- WeatherAPI `current` block. -/
structure WAPICurrent where
  temp_f : ℚ
  condition : WAPICondition
  humidity : ℚ
  wind_mph : ℚ
  wind_degree : ℚ
  vis_miles : ℚ
  feelslike_f : ℚ
  uv : ℚ
  pressure_mb : ℚ
deriving DecidableEq

/-- WeatherAPI hourly entry. -/
structure WAPIHour where
  time : String
  temp_f : ℚ
  condition : WAPICondition
  chance_of_rain : ℚ
deriving DecidableEq

/-- WeatherAPI per-day summary block. -/
structure WAPIDay where
  condition : WAPICondition
  maxtemp_f : ℚ
  mintemp_f : ℚ
  daily_chance_of_rain : ℚ
deriving DecidableEq

/-- WeatherAPI `forecastday` entry. -/
structure WAPIForecastDay where
  date : String
  hour : List WAPIHour
  day : WAPIDay
deriving DecidableEq

/-- WeatherAPI `forecast` block. -/
structure WAPIForecast where
  forecastday : List WAPIForecastDay
deriving DecidableEq

/-- WeatherAPI full response. -/
structure WAPIResponse where
  location : WAPILocation
  current : WAPICurrent
  forecast : WAPIForecast
deriving DecidableEq

/-- AccuWeather `{ Imperial: { Value } }` measure (Imperial flattened to the read value). -/
structure AccuMeasure where
  ImperialValue : ℚ
deriving DecidableEq

/-- AccuWeather wind direction block. -/
structure AccuDirection where
  Degrees : ℚ
deriving DecidableEq

/-- AccuWeather wind block. -/
structure AccuWind where
  Speed : AccuMeasure
  Direction : AccuDirection
deriving DecidableEq

/-- AccuWeather country block of the location response. -/
structure AccuCountry where
  LocalizedName : String
deriving DecidableEq

/-- AccuWeather geoposition-search response. -/
structure AccuLocationRes where
  Key : String
  LocalizedName : String
  Country : AccuCountry
deriving DecidableEq

/-- AccuWeather current-conditions entry (element 0 of the response array). -/
structure AccuCurrent where
  Temperature : AccuMeasure
  WeatherText : String
  RelativeHumidity : ℚ
  Wind : AccuWind
  Visibility : AccuMeasure
  RealFeelTemperature : AccuMeasure
  UVIndex : ℚ
  Pressure : AccuMeasure
deriving DecidableEq

/-- AccuWeather daily temperature range (`Temperature.Maximum.Value`). -/
structure AccuTempRange where
  MaximumValue : ℚ
  MinimumValue : ℚ
deriving DecidableEq

/-- AccuWeather `Day` block of a daily forecast. -/
structure AccuDay where
  IconPhrase : String
  LongPhrase : String
  PrecipitationProbability : ℚ
  Icon : ℚ
deriving DecidableEq

/-- AccuWeather daily forecast entry. -/
structure AccuDailyForecast where
  Date : String
  Temperature : AccuTempRange
  Day : AccuDay
deriving DecidableEq

/-- AccuWeather 10-day forecast response. -/
structure AccuForecast where
  DailyForecasts : List AccuDailyForecast
deriving DecidableEq

/-! ## Adapters (registerRoutes: fetchOpenWeatherMap / fetchWeatherAPI / fetchAccuWeather)

An adapter returns `none` when the JavaScript would throw while reading the
response (an indexing into an empty array), which the caller's try/catch
turns into "no result from this source". Date/locale label formatting is
abstracted. -/

/-- Abstraction of `new Date(dt*1000).toLocaleTimeString('en-US', { hour: 'numeric' })`. -/
def formatHourLabel (dt : ℤ) : String := "hour " ++ toString dt

/-- Abstraction of `new Date(dt*1000).toLocaleDateString('en-US', { weekday: 'short' })`. -/
def formatWeekdayLabel (dt : ℤ) : String := "weekday " ++ toString dt

/-- Abstraction of `new Date(str).toLocaleTimeString('en-US', { hour: 'numeric' })`. -/
def formatHourOfString (s : String) : String := "hour " ++ s

/-- Abstraction of `new Date(str).toLocaleDateString('en-US', { weekday: 'short' })`. -/
def formatWeekdayOfString (s : String) : String := "weekday " ++ s

/-- Sequences an option-producing map over a list, failing if any element fails
(the JavaScript `.map` whose callback may throw). -/
def optionTraverse (f : α → Option β) : List α → Option (List β)
  | [] => some []
  | a :: as =>
    match f a, optionTraverse f as with
    | some b, some bs => some (b :: bs)
    | _, _ => none

/-- Hourly entry built by fetchOpenWeatherMap from a forecast item; reading
`item.weather[0]` fails on an empty array. -/
def mkOWMHourly (item : OWMForecastItem) : Option HourlyPoint :=
  item.weather.head?.map (fun w =>
    { time := formatHourLabel item.dt
      temperature := (jround item.main.temp : ℚ)
      condition := w.main
      precipitation := (jround (item.pop.getD 0 * 100) : ℚ)
      icon := IconVal.str w.icon })

/-- Daily entry built by fetchOpenWeatherMap from a forecast item at position
`idx` of the filtered list. -/
def mkOWMDaily (idx : ℕ) (item : OWMForecastItem) : Option DailyPoint :=
  item.weather.head?.map (fun w =>
    { day := if idx = 0 then "Today" else formatWeekdayLabel item.dt
      condition := w.main
      description := w.description
      highTemp := (jround item.main.temp_max : ℚ)
      lowTemp := (jround item.main.temp_min : ℚ)
      precipitation := (jround (item.pop.getD 0 * 100) : ℚ)
      icon := IconVal.str w.icon })

/-- fetchOpenWeatherMap: normalizes the two OpenWeatherMap responses. Visibility
is converted from meters to miles (divide by 1609.344) and rounded to one
decimal; temperatures and wind speed are rounded to the nearest integer. -/
def fetchOpenWeatherMap (lat lon : ℚ) (current : OWMCurrent) (forecast : OWMForecast) :
    Option WeatherRecord :=
  match current.weather.head? with
  | none => none
  | some w0 =>
  match optionTraverse mkOWMHourly (forecast.list.take 24) with
  | none => none
  | some hourly =>
  match optionTraverse (fun p => mkOWMDaily p.1 p.2)
      ((((forecast.list.enum.filter (fun p => p.1 % 8 == 0)).map Prod.snd).take 10).enum) with
  | none => none
  | some daily =>
  some
    { source := "openweathermap"
      location := current.name ++ ", " ++ current.sys.country
      latitude := lat
      longitude := lon
      currentWeather :=
        { temperature := (jround current.main.temp : ℚ)
          condition := w0.main
          description := w0.description
          humidity := current.main.humidity
          windSpeed := (jround current.wind.speed : ℚ)
          windDirection := current.wind.deg
          visibility := (jround (current.visibility / (201168/125) * 10) : ℚ) / 10
          feelsLike := (jround current.main.feels_like : ℚ)
          uvIndex := 6
          pressure := current.main.pressure }
      hourlyForecast := hourly
      dailyForecast := daily }

/-- Hourly entry built by fetchWeatherAPI. -/
def mkWAPIHour (hour : WAPIHour) : HourlyPoint :=
  { time := formatHourOfString hour.time
    temperature := (jround hour.temp_f : ℚ)
    condition := hour.condition.text
    precipitation := hour.chance_of_rain
    icon := IconVal.str hour.condition.icon }

/-- Daily entry built by fetchWeatherAPI from the forecast day at position `idx`. -/
def mkWAPIDaily (idx : ℕ) (fd : WAPIForecastDay) : DailyPoint :=
  { day := if idx = 0 then "Today" else formatWeekdayOfString fd.date
    condition := fd.day.condition.text
    description := fd.day.condition.text
    highTemp := (jround fd.day.maxtemp_f : ℚ)
    lowTemp := (jround fd.day.mintemp_f : ℚ)
    precipitation := fd.day.daily_chance_of_rain
    icon := IconVal.str fd.day.condition.icon }

/-- fetchWeatherAPI: normalizes the single WeatherAPI response. Visibility, uv
and pressure are passed through; reading `forecastday[0].hour` fails when
`forecastday` is empty. -/
def fetchWeatherAPI (lat lon : ℚ) (data : WAPIResponse) : Option WeatherRecord :=
  match data.forecast.forecastday.head? with
  | none => none
  | some fd0 =>
  some
    { source := "weatherapi"
      location := data.location.name ++ ", " ++ data.location.country
      latitude := lat
      longitude := lon
      currentWeather :=
        { temperature := (jround data.current.temp_f : ℚ)
          condition := data.current.condition.text
          description := data.current.condition.text
          humidity := data.current.humidity
          windSpeed := (jround data.current.wind_mph : ℚ)
          windDirection := data.current.wind_degree
          visibility := data.current.vis_miles
          feelsLike := (jround data.current.feelslike_f : ℚ)
          uvIndex := data.current.uv
          pressure := data.current.pressure_mb }
      hourlyForecast := (fd0.hour.take 24).map mkWAPIHour
      dailyForecast := data.forecast.forecastday.enum.map (fun p => mkWAPIDaily p.1 p.2) }

/-- Daily entry built by fetchAccuWeather from the daily forecast at position `idx`. -/
def mkAccuDaily (idx : ℕ) (day : AccuDailyForecast) : DailyPoint :=
  { day := if idx = 0 then "Today" else formatWeekdayOfString day.Date
    condition := day.Day.IconPhrase
    description := day.Day.LongPhrase
    highTemp := (jround day.Temperature.MaximumValue : ℚ)
    lowTemp := (jround day.Temperature.MinimumValue : ℚ)
    precipitation := day.Day.PrecipitationProbability
    icon := IconVal.num day.Day.Icon }

/-- fetchAccuWeather: normalizes the AccuWeather responses. The current
conditions are element 0 of the response array (failing when it is empty);
the hourly sequence is always empty. -/
def fetchAccuWeather (lat lon : ℚ) (locationRes : AccuLocationRes)
    (currentList : List AccuCurrent) (forecast : AccuForecast) : Option WeatherRecord :=
  match currentList.head? with
  | none => none
  | some current =>
  some
    { source := "accuweather"
      location := locationRes.LocalizedName ++ ", " ++ locationRes.Country.LocalizedName
      latitude := lat
      longitude := lon
      currentWeather :=
        { temperature := (jround current.Temperature.ImperialValue : ℚ)
          condition := current.WeatherText
          description := current.WeatherText
          humidity := current.RelativeHumidity
          windSpeed := (jround current.Wind.Speed.ImperialValue : ℚ)
          windDirection := current.Wind.Direction.Degrees
          visibility := (jround current.Visibility.ImperialValue : ℚ)
          feelsLike := (jround current.RealFeelTemperature.ImperialValue : ℚ)
          uvIndex := current.UVIndex
          pressure := current.Pressure.ImperialValue }
      hourlyForecast := []
      dailyForecast := forecast.DailyForecasts.enum.map (fun p => mkAccuDaily p.1 p.2) }

/-! ## Fan-out coordinator, scorer pass and selector (the /api/weather route) -/

/-- Iteration order of the three configured sources (`weatherSources`). -/
def weatherSources : List String := ["openweathermap", "weatherapi", "accuweather"]

/-- fetchWeatherFromSource: dispatches to one adapter inside a try/catch that
turns any failure into `null`. The adapter call's outcome is the argument
(success with a record, or failure with an error message). -/
def fetchWeatherFromSource (result : Except String WeatherRecord) : Option WeatherRecord :=
  match result with
  | .ok w => some w
  | .error _ => none

/-- Annotation of one successful record with
`storage.getWeatherAccuracy(weather.source, weather.location)`. -/
def scoredOf (weather : WeatherRecord) : ScoredWeather :=
  { toWeatherRecord := weather
    accuracy := getWeatherAccuracy weather.source weather.location }

/-- Accuracy-annotation pass over the successful records. -/
def scoreAll (records : List WeatherRecord) : List ScoredWeather :=
  records.map scoredOf

/-- The `reduce` step of the route: `(current.accuracy > prev.accuracy) ? current : prev`,
folded from the head of the scored list. -/
def selectMostAccurate (x : ScoredWeather) (xs : List ScoredWeather) : ScoredWeather :=
  xs.foldl (fun prev current => if prev.accuracy < current.accuracy then current else prev) x

/-- An HTTP route outcome: a JSON success body, or a status code with message. -/
inductive RouteResult (α : Type) where
  | ok : α → RouteResult α
  | err : ℕ → String → RouteResult α
deriving DecidableEq

/-- Success body of the /api/weather route. -/
structure WeatherResponse where
  sources : List ScoredWeather
  mostAccurate : ScoredWeather
  aggregated : ScoredWeather
deriving DecidableEq

/-- Aggregation pipeline of the /api/weather route, parameterized by the
per-source adapter outcome. `Promise.allSettled` keeps every settled promise
(`fetchWeatherFromSource` never rejects), `.filter(Boolean)` drops the nulls;
an empty successful set yields 503; `reduce` on an empty array would throw a
TypeError caught as a generic 500 (unreachable). -/
def aggregate (outcomes : String → Except String WeatherRecord) : RouteResult WeatherResponse :=
  let successfulResults := (weatherSources.map (fun s => fetchWeatherFromSource (outcomes s))).filterMap id
  if successfulResults.length = 0 then
    .err 503 "Failed to fetch weather data from all sources"
  else
    match scoreAll successfulResults with
    | [] => .err 500 "Failed to fetch weather data"
    | x :: xs =>
      .ok { sources := x :: xs
            mostAccurate := selectMostAccurate x xs
            aggregated := selectMostAccurate x xs }

/-! ## Request parameter handling of the /api/weather route -/

/-- Query parameters of a /api/weather request: `lat`/`lon` absent or a numeric
string with the given value, `location` an optional text. -/
structure WeatherQueryParams where
  lat : Option ℚ
  lon : Option ℚ
  location : Option String
deriving DecidableEq

/-- JavaScript `Number(x)` on an optional numeric parameter: `Number(undefined)` is NaN. -/
def jsNumberOfParam : Option ℚ → JSNum
  | none => .nan
  | some q => .num q

/-- JavaScript `String(x)` on an optional string parameter: `String(undefined)` is "undefined". -/
def jsStringOfParam : Option String → String
  | none => "undefined"
  | some s => s

/-- JavaScript truthiness of an optional string query parameter. -/
def jsTruthyStr : Option String → Bool
  | none => false
  | some s => !s.isEmpty

/-- The parameter record handed to every adapter call. -/
structure FetchParams where
  lat : JSNum
  lon : JSNum
  location : String
deriving DecidableEq

/-- Parameter extraction of the /api/weather route: the guard
`(!lat || !lon) && !location` yields a 400 (modelled as `none`); otherwise the
adapters are invoked with `{ lat: Number(lat), lon: Number(lon), location: String(location) }`
built directly from the raw query, with no location resolution step. -/
def weatherRouteParams (q : WeatherQueryParams) : Option FetchParams :=
  if ((!q.lat.isSome) || (!q.lon.isSome)) && (!jsTruthyStr q.location) then
    none
  else
    some { lat := jsNumberOfParam q.lat
           lon := jsNumberOfParam q.lon
           location := jsStringOfParam q.location }

/-! ## Location search route (/api/locations/search) -/

/-- Outcome of the external geocoding call made on the primary path. -/
inductive GeoOutcome where
  | ok : List Location → GeoOutcome
  | fail : String → GeoOutcome

/-- Result list of the /api/locations/search route: the geocoder's results on
the primary path, and `storage.searchLocations(q)` on the fallback path when
the geocoding call failed. -/
def searchLocationsRoute (geo : GeoOutcome) (cached : List Location) (q : String) : List Location :=
  match geo with
  | .ok results => results
  | .fail _ => searchLocations cached q

/-! ## Derived predicates used in the statements -/

/-- A rational that is a whole number (the value of some integer). -/
def isIntegralQ (q : ℚ) : Prop := ∃ z : ℤ, q = (z : ℚ)

/-- Case-insensitive substring-match predicate of the fallback search, stated
as the existence of a split (name, or a present country, or a present state). -/
def matchesQuery (q : String) (loc : Location) : Prop :=
  (∃ s t, (jsToLower loc.name).data = s ++ (jsToLower q).data ++ t) ∨
  (∃ c, loc.country = some c ∧ ∃ s t, (jsToLower c).data = s ++ (jsToLower q).data ++ t) ∨
  (∃ st', loc.state = some st' ∧ ∃ s t, (jsToLower st').data = s ++ (jsToLower q).data ++ t)

/-! ## Concrete sample inputs used by witnesses and counterexamples -/

/-- Sample OpenWeatherMap weather-array element. -/
def sampleOWMWeatherDesc : OWMWeatherDesc :=
  { main := "Clear", description := "clear sky", icon := "01d" }

/-- Sample OpenWeatherMap current-weather response with integer field values. -/
def sampleOWMCurrent : OWMCurrent :=
  { name := "Seattle"
    sys := { country := "US" }
    main := { temp := 72, feels_like := 70, temp_min := 65, temp_max := 75,
              pressure := 1012, humidity := 55 }
    weather := [sampleOWMWeatherDesc]
    wind := { speed := 8, deg := 180 }
    visibility := 16093 }

/-- Sample OpenWeatherMap forecast response with an empty list. -/
def sampleOWMForecast : OWMForecast := { list := [] }

/-- Sample WeatherAPI condition block. -/
def sampleWAPICondition : WAPICondition := { text := "Sunny", icon := "sun.png" }

/-- Sample WeatherAPI forecast day. -/
def sampleWAPIForecastDay : WAPIForecastDay :=
  { date := "2025-01-01"
    hour := [{ time := "2025-01-01 13:00", temp_f := 71,
               condition := sampleWAPICondition, chance_of_rain := 10 }]
    day := { condition := sampleWAPICondition, maxtemp_f := 75, mintemp_f := 60,
             daily_chance_of_rain := 20 } }

/-- Sample WeatherAPI response whose reported visibility is 2.5 miles. -/
def sampleWAPIResponse : WAPIResponse :=
  { location := { name := "Seattle", country := "USA" }
    current := { temp_f := 72, condition := sampleWAPICondition, humidity := 50,
                 wind_mph := 5, wind_degree := 90, vis_miles := 5/2,
                 feelslike_f := 73, uv := 4, pressure_mb := 1015 }
    forecast := { forecastday := [sampleWAPIForecastDay] } }

/-- Sample WeatherAPI response whose forecast carries eleven days. -/
def elevenDayWAPIResponse : WAPIResponse :=
  { location := { name := "Seattle", country := "USA" }
    current := { temp_f := 72, condition := sampleWAPICondition, humidity := 50,
                 wind_mph := 5, wind_degree := 90, vis_miles := 9,
                 feelslike_f := 73, uv := 4, pressure_mb := 1015 }
    forecast := { forecastday := List.replicate 11 sampleWAPIForecastDay } }

/-- Sample AccuWeather geoposition response. -/
def sampleAccuLocation : AccuLocationRes :=
  { Key := "12345", LocalizedName := "Seattle",
    Country := { LocalizedName := "United States" } }

/-- Sample AccuWeather current conditions. -/
def sampleAccuCurrent : AccuCurrent :=
  { Temperature := { ImperialValue := 72 }
    WeatherText := "Sunny"
    RelativeHumidity := 45
    Wind := { Speed := { ImperialValue := 7 }, Direction := { Degrees := 200 } }
    Visibility := { ImperialValue := 10 }
    RealFeelTemperature := { ImperialValue := 74 }
    UVIndex := 5
    Pressure := { ImperialValue := 30 } }

/-- Sample AccuWeather forecast with one day. -/
def sampleAccuForecast : AccuForecast :=
  { DailyForecasts :=
      [{ Date := "2025-01-01"
         Temperature := { MaximumValue := 75, MinimumValue := 60 }
         Day := { IconPhrase := "Sunny", LongPhrase := "Sunny all day",
                  PrecipitationProbability := 10, Icon := 1 }}] }

/-- Sample normalized record attributed to the openweathermap source. -/
def sampleRecord : WeatherRecord :=
  { source := "openweathermap"
    location := "Seattle, US"
    latitude := 0
    longitude := 0
    currentWeather := { temperature := 72, condition := "Clear", description := "clear sky",
                        humidity := 50, windSpeed := 8, windDirection := 180,
                        visibility := 10, feelsLike := 70, uvIndex := 6, pressure := 1012 }
    hourlyForecast := []
    dailyForecast := [] }

/-- Outcome assignment in which only openweathermap succeeds. -/
def sampleOutcomes : String → Except String WeatherRecord := fun s =>
  if s = "openweathermap" then .ok sampleRecord else .error "network error"

/-- Outcome assignment in which every adapter fails. -/
def failingOutcomes : String → Except String WeatherRecord := fun _ =>
  .error "network error"

/-- Cached Location close to the queried New York coordinates. -/
def nearSample : Location :=
  { id := "1", name := "New York", latitude := 407135/10000, longitude := -(740058/10000),
    country := some "US", state := some "NY" }

/-- Cached Location too far from the queried New York coordinates. -/
def farSample : Location :=
  { id := "2", name := "Elsewhere", latitude := 4073/100, longitude := -(7402/100),
    country := some "US", state := none }

/-- Cached Location whose name contains "spring" case-insensitively. -/
def springfieldLoc : Location :=
  { id := "3", name := "Springfield", latitude := 0, longitude := 0,
    country := some "USA", state := some "Illinois" }

/-! ## Helper lemmas -/

/-- Boolean test that `z`'s accuracy dominates every element of `l`. -/
def isMaxIn (l : List ScoredWeather) (z : ScoredWeather) : Bool :=
  l.all (fun y => decide (y.accuracy ≤ z.accuracy))

theorem isMaxIn_iff (l : List ScoredWeather) (z : ScoredWeather) :
    isMaxIn l z = true ↔ ∀ y ∈ l, y.accuracy ≤ z.accuracy := by
  simp [isMaxIn]

theorem find?_congr_local {α : Type _} {p q : α → Bool} :
    ∀ l : List α, (∀ a ∈ l, p a = q a) → l.find? p = l.find? q := by
  intro l
  induction l with
  | nil => intro _; rfl
  | cons a as ih =>
    intro h
    have ha := h a (by simp)
    by_cases hpa : p a = true
    · rw [List.find?_cons_of_pos as hpa, List.find?_cons_of_pos as (ha ▸ hpa)]
    · rw [List.find?_cons_of_neg as hpa, List.find?_cons_of_neg as (ha ▸ hpa)]
      exact ih (fun b hb => h b (by simp [hb]))

theorem selectMostAccurate_cons (x c : ScoredWeather) (cs : List ScoredWeather) :
    selectMostAccurate x (c :: cs) =
      selectMostAccurate (if x.accuracy < c.accuracy then c else x) cs := rfl

theorem selectMostAccurate_mem (xs : List ScoredWeather) :
    ∀ x : ScoredWeather, selectMostAccurate x xs ∈ x :: xs := by
  induction xs with
  | nil => intro x; simp [selectMostAccurate]
  | cons c cs ih =>
    intro x
    rw [selectMostAccurate_cons]
    by_cases hxc : x.accuracy < c.accuracy
    · rw [if_pos hxc]
      have := ih c
      rcases List.mem_cons.mp this with h | h
      · simp [h]
      · simp [List.mem_cons.mpr (Or.inr (List.mem_cons.mpr (Or.inr h)))]
    · rw [if_neg hxc]
      have := ih x
      rcases List.mem_cons.mp this with h | h
      · simp [h]
      · simp [List.mem_cons.mpr (Or.inr (List.mem_cons.mpr (Or.inr h)))]

theorem selectMostAccurate_le (xs : List ScoredWeather) :
    ∀ x : ScoredWeather, ∀ y ∈ x :: xs, y.accuracy ≤ (selectMostAccurate x xs).accuracy := by
  induction xs with
  | nil =>
    intro x y hy
    rcases List.mem_cons.mp hy with h | h
    · subst h; simp [selectMostAccurate]
    · simp at h
  | cons c cs ih =>
    intro x y hy
    rw [selectMostAccurate_cons]
    by_cases hxc : x.accuracy < c.accuracy
    · rw [if_pos hxc]
      rcases List.mem_cons.mp hy with h | h
      · subst h
        have hc := ih c c (List.mem_cons.mpr (Or.inl rfl))
        exact le_of_lt (lt_of_lt_of_le hxc hc)
      · exact ih c y h
    · rw [if_neg hxc]
      rcases List.mem_cons.mp hy with h | h
      · subst h
        exact ih y y (List.mem_cons.mpr (Or.inl rfl))
      · rcases List.mem_cons.mp h with h' | h'
        · subst h'
          have hx := ih x x (List.mem_cons.mpr (Or.inl rfl))
          exact le_trans (not_lt.mp hxc) hx
        · exact ih x y (List.mem_cons.mpr (Or.inr h'))

theorem find?_isMaxIn (xs : List ScoredWeather) :
    ∀ x : ScoredWeather,
      (x :: xs).find? (isMaxIn (x :: xs)) = some (selectMostAccurate x xs) := by
  induction xs with
  | nil =>
    intro x
    have hx : isMaxIn [x] x = true := by
      rw [isMaxIn_iff]
      intro y hy
      rcases List.mem_cons.mp hy with rfl | hy'
      · exact le_refl _
      · simp at hy'
    rw [List.find?_cons_of_pos _ hx]
    rfl
  | cons c cs ih =>
    intro x
    rw [selectMostAccurate_cons]
    by_cases hxc : x.accuracy < c.accuracy
    · rw [if_pos hxc, ← ih c]
      have hx : ¬ isMaxIn (x :: c :: cs) x = true := by
        rw [isMaxIn_iff]
        intro h
        exact absurd hxc (not_lt.mpr (h c (by simp)))
      rw [List.find?_cons_of_neg _ hx]
      apply find?_congr_local
      intro a _
      rw [Bool.eq_iff_iff, isMaxIn_iff, isMaxIn_iff]
      constructor
      · intro h y hy
        exact h y (by simp [List.mem_cons.mp hy])
      · intro h y hy
        rcases List.mem_cons.mp hy with rfl | hy'
        · exact le_of_lt (lt_of_lt_of_le hxc (h c (by simp)))
        · exact h y hy'
    · rw [if_neg hxc, ← ih x]
      have hcx : c.accuracy ≤ x.accuracy := not_lt.mp hxc
      by_cases hmax : isMaxIn (x :: cs) x = true
      · have hmax2 : isMaxIn (x :: c :: cs) x = true := by
          rw [isMaxIn_iff] at hmax ⊢
          intro y hy
          rcases List.mem_cons.mp hy with rfl | hy'
          · exact le_refl _
          · rcases List.mem_cons.mp hy' with rfl | hy''
            · exact hcx
            · exact hmax y (by simp [hy''])
        rw [List.find?_cons_of_pos _ hmax2, List.find?_cons_of_pos _ hmax]
      · have hmax2 : ¬ isMaxIn (x :: c :: cs) x = true := by
          intro h
          apply hmax
          rw [isMaxIn_iff] at h ⊢
          intro y hy
          rcases List.mem_cons.mp hy with rfl | hy'
          · exact le_refl _
          · exact h y (by simp [hy'])
        rw [List.find?_cons_of_neg _ hmax2, List.find?_cons_of_neg _ hmax]
        have hc : ¬ isMaxIn (x :: c :: cs) c = true := by
          intro h
          apply hmax
          rw [isMaxIn_iff] at h ⊢
          intro y hy
          rcases List.mem_cons.mp hy with heq | hy'
          · rw [heq]
          · exact le_trans (h y (by simp [hy'])) hcx
        rw [List.find?_cons_of_neg _ hc]
        apply find?_congr_local
        intro a _
        rw [Bool.eq_iff_iff, isMaxIn_iff, isMaxIn_iff]
        constructor
        · intro h y hy
          rcases List.mem_cons.mp hy with heq | hy'
          · rw [heq]; exact h x (by simp)
          · exact h y (by simp [hy'])
        · intro h y hy
          rcases List.mem_cons.mp hy with heq | hy'
          · rw [heq]; exact h x (by simp)
          · rcases List.mem_cons.mp hy' with heq' | hy''
            · rw [heq']; exact le_trans hcx (h x (by simp))
            · exact h y (by simp [hy''])

theorem optionTraverse_length {α β : Type _} {f : α → Option β} :
    ∀ {l : List α} {l' : List β}, optionTraverse f l = some l' → l'.length = l.length := by
  intro l
  induction l with
  | nil =>
    intro l' h
    simp only [optionTraverse, Option.some.injEq] at h
    rw [← h]
    rfl
  | cons a as ih =>
    intro l' h
    simp only [optionTraverse] at h
    cases hfa : f a with
    | none => rw [hfa] at h; simp at h
    | some b =>
      cases hrec : optionTraverse f as with
      | none => rw [hfa, hrec] at h; simp at h
      | some bs =>
        rw [hfa, hrec] at h
        simp only [Option.some.injEq] at h
        rw [← h]
        simp [ih hrec]

theorem optionTraverse_mem {α β : Type _} {f : α → Option β} :
    ∀ {l : List α} {l' : List β}, optionTraverse f l = some l' →
      ∀ b ∈ l', ∃ a ∈ l, f a = some b := by
  intro l
  induction l with
  | nil =>
    intro l' h
    simp only [optionTraverse, Option.some.injEq] at h
    rw [← h]
    intro b hb
    simp at hb
  | cons a as ih =>
    intro l' h
    simp only [optionTraverse] at h
    cases hfa : f a with
    | none => rw [hfa] at h; simp at h
    | some b0 =>
      cases hrec : optionTraverse f as with
      | none => rw [hfa, hrec] at h; simp at h
      | some bs =>
        rw [hfa, hrec] at h
        simp only [Option.some.injEq] at h
        rw [← h]
        intro b hb
        rcases List.mem_cons.mp hb with heq | hb'
        · exact ⟨a, by simp, heq ▸ hfa⟩
        · rcases ih hrec b hb' with ⟨a', ha', hfa'⟩
          exact ⟨a', by simp [ha'], hfa'⟩

theorem beginsWith_iff : ∀ (sub l : List Char),
    beginsWith sub l = true ↔ ∃ t, l = sub ++ t := by
  intro sub
  induction sub with
  | nil =>
    intro l
    simp [beginsWith]
  | cons a as ih =>
    intro l
    cases l with
    | nil =>
      simp [beginsWith]
    | cons b bs =>
      simp only [beginsWith, Bool.and_eq_true, beq_iff_eq, ih bs, List.cons_append,
        List.cons.injEq]
      constructor
      · rintro ⟨heq, t, ht⟩
        exact ⟨t, heq.symm, ht⟩
      · rintro ⟨t, heq, ht⟩
        exact ⟨heq.symm, t, ht⟩

theorem containsSub_iff : ∀ (sub l : List Char),
    containsSub sub l = true ↔ ∃ s t, l = s ++ sub ++ t := by
  intro sub l
  induction l with
  | nil =>
    simp only [containsSub, List.isEmpty_iff]
    constructor
    · intro h
      exact ⟨[], [], by simp [h]⟩
    · rintro ⟨s, t, h⟩
      rcases List.append_eq_nil.mp (List.append_eq_nil.mp h.symm).1 with ⟨_, h2⟩
      exact h2
  | cons c rest ih =>
    simp only [containsSub, Bool.or_eq_true, beginsWith_iff, ih]
    constructor
    · rintro (⟨t, ht⟩ | ⟨s, t, h⟩)
      · exact ⟨[], t, by simp [ht]⟩
      · exact ⟨c :: s, t, by simp [h]⟩
    · rintro ⟨s, t, h⟩
      cases s with
      | nil =>
        exact Or.inl ⟨t, by simpa using h⟩
      | cons s0 ss =>
        simp only [List.cons_append, List.cons.injEq] at h
        exact Or.inr ⟨ss, t, h.2⟩

theorem containsSub_nil_left : ∀ l : List Char, containsSub [] l = true := by
  intro l
  cases l with
  | nil => rfl
  | cons c rest => simp [containsSub, beginsWith]

theorem scoreAll_map_toWeatherRecord (l : List WeatherRecord) :
    (scoreAll l).map (fun r => r.toWeatherRecord) = l := by
  induction l with
  | nil => rfl
  | cons a as ih => simp [scoreAll, scoredOf] at ih ⊢; exact ih

theorem accuracy_of_mem_scoreAll {r : ScoredWeather} {l : List WeatherRecord}
    (h : r ∈ scoreAll l) : r.accuracy = getWeatherAccuracy r.source r.location := by
  rcases List.mem_map.mp h with ⟨a, _, heq⟩
  rw [← heq]
  rfl

theorem aggregate_cases (outcomes : String → Except String WeatherRecord) :
    ((weatherSources.map (fun s => fetchWeatherFromSource (outcomes s))).filterMap id = [] ∧
      aggregate outcomes = .err 503 "Failed to fetch weather data from all sources") ∨
    (∃ w ws, (weatherSources.map (fun s => fetchWeatherFromSource (outcomes s))).filterMap id = w :: ws ∧
      aggregate outcomes = .ok
        { sources := scoredOf w :: scoreAll ws
          mostAccurate := selectMostAccurate (scoredOf w) (scoreAll ws)
          aggregated := selectMostAccurate (scoredOf w) (scoreAll ws) }) := by
  cases h : (weatherSources.map (fun s => fetchWeatherFromSource (outcomes s))).filterMap id with
  | nil =>
    left
    refine ⟨rfl, ?_⟩
    simp only [aggregate]
    rw [h]
    rfl
  | cons w ws =>
    right
    refine ⟨w, ws, rfl, ?_⟩
    simp only [aggregate]
    rw [h]
    simp [scoreAll]

theorem success_mem_filterMap {outcomes : String → Except String WeatherRecord} {s : String}
    (hs : s ∈ weatherSources) {w : WeatherRecord} (hw : outcomes s = Except.ok w) :
    w ∈ (weatherSources.map (fun s => fetchWeatherFromSource (outcomes s))).filterMap id := by
  apply List.mem_filterMap.mpr
  refine ⟨some w, ?_, rfl⟩
  apply List.mem_map.mpr
  exact ⟨s, hs, by rw [hw]; rfl⟩

/-! ## Claim theorems -/

/-- C1: for every assignment of outcomes to the three provider adapters in which
at least one adapter succeeds, `aggregate` does not fail: it returns a response
whose `sources` sequence is non-empty and is exactly the accuracy-annotated
successful records, and whose `mostAccurate` is a member of `sources` whose
accuracy score is greater than or equal to every member's score. -/
theorem c1_aggregate_success (outcomes : String → Except String WeatherRecord)
    (h : ∃ s ∈ weatherSources, ∃ w, outcomes s = Except.ok w) :
    ∃ resp, aggregate outcomes = RouteResult.ok resp ∧
      resp.sources ≠ [] ∧
      resp.sources.map (fun r => r.toWeatherRecord) =
        (weatherSources.map (fun s => fetchWeatherFromSource (outcomes s))).filterMap id ∧
      (∀ r ∈ resp.sources, r.accuracy = getWeatherAccuracy r.source r.location) ∧
      resp.mostAccurate ∈ resp.sources ∧
      (∀ y ∈ resp.sources, y.accuracy ≤ resp.mostAccurate.accuracy) := by
  rcases aggregate_cases outcomes with ⟨hnil, _⟩ | ⟨w, ws, hcons, hok⟩
  · exfalso
    rcases h with ⟨s, hs, w, hw⟩
    have hmem := success_mem_filterMap hs hw
    rw [hnil] at hmem
    simp at hmem
  · refine ⟨_, hok, by simp, ?_, ?_, ?_, ?_⟩
    · have : (scoredOf w :: scoreAll ws) = scoreAll (w :: ws) := by simp [scoreAll]
      show (scoredOf w :: scoreAll ws).map (fun r => r.toWeatherRecord) = _
      rw [this, scoreAll_map_toWeatherRecord, hcons]
    · intro r hr
      have : r ∈ scoreAll (w :: ws) := by simpa [scoreAll] using hr
      exact accuracy_of_mem_scoreAll this
    · exact selectMostAccurate_mem (scoreAll ws) (scoredOf w)
    · exact selectMostAccurate_le (scoreAll ws) (scoredOf w)

/-- Witness for C1 at a concrete outcome assignment in which exactly one
adapter succeeds. -/
theorem c1_aggregate_success_witness :
    ∃ resp, aggregate sampleOutcomes = RouteResult.ok resp ∧
      resp.sources ≠ [] ∧
      resp.sources.map (fun r => r.toWeatherRecord) =
        (weatherSources.map (fun s => fetchWeatherFromSource (sampleOutcomes s))).filterMap id ∧
      (∀ r ∈ resp.sources, r.accuracy = getWeatherAccuracy r.source r.location) ∧
      resp.mostAccurate ∈ resp.sources ∧
      (∀ y ∈ resp.sources, y.accuracy ≤ resp.mostAccurate.accuracy) :=
  c1_aggregate_success sampleOutcomes
    ⟨"openweathermap", by simp [weatherSources], sampleRecord, rfl⟩

/-- C2: `aggregate` fails exactly when the successful set is empty, the failure
is the distinct 503 service-unavailable outcome (never another status), a
success never carries an empty `sources`, and any single success among the
configured sources forces a success of the aggregate. -/
theorem c2_all_sources_failed (outcomes : String → Except String WeatherRecord) :
    (aggregate outcomes = RouteResult.err 503 "Failed to fetch weather data from all sources" ↔
      (weatherSources.map (fun s => fetchWeatherFromSource (outcomes s))).filterMap id = []) ∧
    (∀ st m, aggregate outcomes = RouteResult.err st m → st = 503) ∧
    (∀ resp, aggregate outcomes = RouteResult.ok resp → resp.sources ≠ []) ∧
    (∀ s ∈ weatherSources, ∀ w, outcomes s = Except.ok w →
      ∃ resp, aggregate outcomes = RouteResult.ok resp) := by
  rcases aggregate_cases outcomes with ⟨hnil, herr⟩ | ⟨w, ws, hcons, hok⟩
  · refine ⟨⟨fun _ => hnil, fun _ => herr⟩, ?_, ?_, ?_⟩
    · intro st m hm
      rw [herr] at hm
      cases hm
      rfl
    · intro resp hresp
      rw [herr] at hresp
      cases hresp
    · intro s hs w hw
      exfalso
      have hmem := success_mem_filterMap hs hw
      rw [hnil] at hmem
      simp at hmem
  · refine ⟨⟨?_, ?_⟩, ?_, ?_, ?_⟩
    · intro hh
      rw [hok] at hh
      cases hh
    · intro hh
      rw [hcons] at hh
      cases hh
    · intro st m hm
      rw [hok] at hm
      cases hm
    · intro resp hresp
      rw [hok] at hresp
      cases hresp
      simp
    · intro s hs w' hw'
      exact ⟨_, hok⟩

/-- Witness for C2 at concrete outcome assignments: one with a single success
(aggregate succeeds) and one with all three failing (503). -/
theorem c2_all_sources_failed_witness :
    (∃ resp, aggregate sampleOutcomes = RouteResult.ok resp) ∧
    aggregate failingOutcomes =
      RouteResult.err 503 "Failed to fetch weather data from all sources" := by
  constructor
  · exact (c2_all_sources_failed sampleOutcomes).2.2.2 "openweathermap"
      (by simp [weatherSources]) sampleRecord rfl
  · exact (c2_all_sources_failed failingOutcomes).1.mpr rfl

/-- C4: whenever the maximum accuracy among the scored records is attained
(including shared by several records), the record selected by the route's
`reduce` is the first record of the sequence attaining that maximum, so the
tie-break is the first-encountered order and is deterministic. -/
theorem c4_tie_break_first (x : ScoredWeather) (xs : List ScoredWeather) :
    (x :: xs).find? (fun z => (x :: xs).all (fun y => decide (y.accuracy ≤ z.accuracy))) =
      some (selectMostAccurate x xs) :=
  find?_isMaxIn xs x

/-- C3: the accuracy score is defined and non-zero for every source string and
location: openweathermap scores 0.94, weatherapi 0.87, accuweather 0.89, and
any unrecognized provider string gets the fixed baseline 0.85, never zero. -/
theorem c3_score_table (source location : String) :
    getWeatherAccuracy source location ≠ 0 ∧
    getWeatherAccuracy "openweathermap" location = 94/100 ∧
    getWeatherAccuracy "weatherapi" location = 87/100 ∧
    getWeatherAccuracy "accuweather" location = 89/100 ∧
    (source ≠ "openweathermap" → source ≠ "accuweather" → source ≠ "weatherapi" →
      getWeatherAccuracy source location = 85/100) := by
  have heval : ∀ s : String, getWeatherAccuracy s location =
      if s = "openweathermap" then 94/100
      else if s = "accuweather" then 89/100
      else if s = "weatherapi" then 87/100
      else 85/100 := by
    intro s
    unfold getWeatherAccuracy accuracyMap jsOrNum
    by_cases h1 : s = "openweathermap"
    · simp only [h1, if_pos rfl]
      norm_num
    · rw [if_neg h1, if_neg h1]
      by_cases h2 : s = "accuweather"
      · simp only [h2, if_pos rfl]
        norm_num
      · rw [if_neg h2, if_neg h2]
        by_cases h3 : s = "weatherapi"
        · simp only [h3, if_pos rfl]
          norm_num
        · rw [if_neg h3, if_neg h3]
    -- the essential content: the lookup miss falls back to 0.85, not 0
  refine ⟨?_, ?_, ?_, ?_, ?_⟩
  · rw [heval source]
    by_cases h1 : source = "openweathermap" <;> by_cases h2 : source = "accuweather" <;>
      by_cases h3 : source = "weatherapi" <;> simp [h1, h2, h3]
  · rw [heval "openweathermap"]
    norm_num
  · rw [heval "weatherapi"]
    have : ("weatherapi" : String) ≠ "openweathermap" := by decide
    have h2 : ("weatherapi" : String) ≠ "accuweather" := by decide
    simp [this, h2]
  · rw [heval "accuweather"]
    have : ("accuweather" : String) ≠ "openweathermap" := by decide
    simp [this]
  · intro h1 h2 h3
    rw [heval source]
    simp [h1, h2, h3]

/-- Witness for C3 at an unrecognized provider string. -/
theorem c3_score_table_witness :
    getWeatherAccuracy "bogus" "anywhere" = 85/100 ∧
    getWeatherAccuracy "bogus" "anywhere" ≠ 0 ∧
    getWeatherAccuracy "openweathermap" "anywhere" = 94/100 :=
  ⟨(c3_score_table "bogus" "anywhere").2.2.2.2 (by decide) (by decide) (by decide),
   (c3_score_table "bogus" "anywhere").1,
   (c3_score_table "bogus" "anywhere").2.1⟩

/-- C5 (code evaluation): a request carrying only a location text passes the
route's guard, and the parameters handed to every adapter carry
`Number(undefined)`, i.e. NaN, for both coordinates — no location-resolution
step produces coordinates from the text. -/
theorem c5_text_only_params :
    weatherRouteParams { lat := none, lon := none, location := some "Seattle" } =
      some { lat := JSNum.nan, lon := JSNum.nan, location := "Seattle" } := by
  simp only [weatherRouteParams, jsTruthyStr, jsNumberOfParam, jsStringOfParam]
  rw [if_neg (by decide)]

/-- C6 counterexample: the claim "every displayed numeric field except
precipitation probability and pressure is rounded to the nearest integer"
fails at a concrete WeatherAPI response reporting 2.5 miles of visibility:
the normalized record passes the 2.5 through unrounded. -/
theorem c6_visibility_counterexample :
    ∃ rec, fetchWeatherAPI 0 0 sampleWAPIResponse = some rec ∧
      rec.currentWeather.visibility = 5/2 ∧ ¬ isIntegralQ rec.currentWeather.visibility := by
  refine ⟨_, rfl, rfl, ?_⟩
  rintro ⟨z, hz⟩
  have hz2 : (5:ℚ)/2 = (z:ℚ) := hz
  rw [div_eq_iff (by norm_num : (2:ℚ) ≠ 0)] at hz2
  have hz' : (5:ℤ) = z * 2 := by exact_mod_cast hz2
  omega

/-- C6 amended: each adapter rounds temperature, feelsLike, windSpeed and the
forecast temperature fields to the nearest integer, keeps precipitation
probability an integer percent where it computes one, and passes pressure
through; visibility, however, is rounded to one decimal place by the
openweathermap adapter, passed through unrounded by the weatherapi adapter,
and rounded to the nearest integer by the accuweather adapter. -/
theorem c6_rounding_amended :
    (∀ lat lon cur fc rec, fetchOpenWeatherMap lat lon cur fc = some rec →
      isIntegralQ rec.currentWeather.temperature ∧
      isIntegralQ rec.currentWeather.feelsLike ∧
      isIntegralQ rec.currentWeather.windSpeed ∧
      isIntegralQ (rec.currentWeather.visibility * 10) ∧
      rec.currentWeather.pressure = cur.main.pressure ∧
      (∀ hp ∈ rec.hourlyForecast, isIntegralQ hp.temperature ∧ isIntegralQ hp.precipitation) ∧
      (∀ d ∈ rec.dailyForecast,
        isIntegralQ d.highTemp ∧ isIntegralQ d.lowTemp ∧ isIntegralQ d.precipitation)) ∧
    (∀ lat lon data rec, fetchWeatherAPI lat lon data = some rec →
      isIntegralQ rec.currentWeather.temperature ∧
      isIntegralQ rec.currentWeather.feelsLike ∧
      isIntegralQ rec.currentWeather.windSpeed ∧
      rec.currentWeather.visibility = data.current.vis_miles ∧
      rec.currentWeather.pressure = data.current.pressure_mb ∧
      (∀ hp ∈ rec.hourlyForecast, isIntegralQ hp.temperature) ∧
      (∀ d ∈ rec.dailyForecast, isIntegralQ d.highTemp ∧ isIntegralQ d.lowTemp)) ∧
    (∀ lat lon locRes c rest fc rec, fetchAccuWeather lat lon locRes (c :: rest) fc = some rec →
      isIntegralQ rec.currentWeather.temperature ∧
      isIntegralQ rec.currentWeather.feelsLike ∧
      isIntegralQ rec.currentWeather.windSpeed ∧
      isIntegralQ rec.currentWeather.visibility ∧
      rec.currentWeather.pressure = c.Pressure.ImperialValue ∧
      (∀ d ∈ rec.dailyForecast, isIntegralQ d.highTemp ∧ isIntegralQ d.lowTemp)) := by
  refine ⟨?_, ?_, ?_⟩
  · intro lat lon cur fc rec h
    unfold fetchOpenWeatherMap at h
    cases hw : cur.weather.head? with
    | none => rw [hw] at h; simp at h
    | some w0 =>
      rw [hw] at h
      cases hh : optionTraverse mkOWMHourly (fc.list.take 24) with
      | none => rw [hh] at h; simp at h
      | some hourly =>
        rw [hh] at h
        cases hd : optionTraverse (fun p => mkOWMDaily p.1 p.2)
            ((((fc.list.enum.filter (fun p => p.1 % 8 == 0)).map Prod.snd).take 10).enum) with
        | none => rw [hd] at h; simp at h
        | some daily =>
          rw [hd] at h
          simp only [Option.some.injEq] at h
          subst h
          refine ⟨⟨jround cur.main.temp, rfl⟩, ⟨jround cur.main.feels_like, rfl⟩,
            ⟨jround cur.wind.speed, rfl⟩,
            ⟨jround (cur.visibility / (201168/125) * 10), by ring⟩, rfl, ?_, ?_⟩
          · intro hp hmem
            rcases optionTraverse_mem hh hp hmem with ⟨item, _, hitem⟩
            rcases Option.map_eq_some'.mp hitem with ⟨w, _, heq⟩
            rw [← heq]
            exact ⟨⟨jround item.main.temp, rfl⟩, ⟨jround (item.pop.getD 0 * 100), rfl⟩⟩
          · intro d hmem
            rcases optionTraverse_mem hd d hmem with ⟨p, _, hitem⟩
            rcases Option.map_eq_some'.mp hitem with ⟨w, _, heq⟩
            rw [← heq]
            exact ⟨⟨jround p.2.main.temp_max, rfl⟩, ⟨jround p.2.main.temp_min, rfl⟩,
              ⟨jround (p.2.pop.getD 0 * 100), rfl⟩⟩
  · intro lat lon data rec h
    unfold fetchWeatherAPI at h
    cases hw : data.forecast.forecastday.head? with
    | none => rw [hw] at h; simp at h
    | some fd0 =>
      rw [hw] at h
      simp only [Option.some.injEq] at h
      subst h
      refine ⟨⟨jround data.current.temp_f, rfl⟩, ⟨jround data.current.feelslike_f, rfl⟩,
        ⟨jround data.current.wind_mph, rfl⟩, rfl, rfl, ?_, ?_⟩
      · intro hp hmem
        rcases List.mem_map.mp hmem with ⟨hr, _, heq⟩
        rw [← heq]
        exact ⟨jround hr.temp_f, rfl⟩
      · intro d hmem
        rcases List.mem_map.mp hmem with ⟨p, _, heq⟩
        rw [← heq]
        exact ⟨⟨jround p.2.day.maxtemp_f, rfl⟩, ⟨jround p.2.day.mintemp_f, rfl⟩⟩
  · intro lat lon locRes c rest fc rec h
    unfold fetchAccuWeather at h
    simp only [List.head?_cons, Option.some.injEq] at h
    subst h
    refine ⟨⟨jround c.Temperature.ImperialValue, rfl⟩,
      ⟨jround c.RealFeelTemperature.ImperialValue, rfl⟩,
      ⟨jround c.Wind.Speed.ImperialValue, rfl⟩,
      ⟨jround c.Visibility.ImperialValue, rfl⟩, rfl, ?_⟩
    intro d hmem
    rcases List.mem_map.mp hmem with ⟨p, _, heq⟩
    rw [← heq]
    exact ⟨⟨jround p.2.Temperature.MaximumValue, rfl⟩, ⟨jround p.2.Temperature.MinimumValue, rfl⟩⟩

/-- Witness for the amended C6 at concrete provider responses for all three
adapters. -/
theorem c6_rounding_amended_witness :
    ∃ rec, fetchOpenWeatherMap 0 0 sampleOWMCurrent sampleOWMForecast = some rec ∧
      isIntegralQ rec.currentWeather.temperature ∧
      isIntegralQ (rec.currentWeather.visibility * 10) ∧
      ∃ rec2, fetchWeatherAPI 0 0 sampleWAPIResponse = some rec2 ∧
        rec2.currentWeather.visibility = sampleWAPIResponse.current.vis_miles ∧
        ∃ rec3, fetchAccuWeather 0 0 sampleAccuLocation (sampleAccuCurrent :: [])
            sampleAccuForecast = some rec3 ∧
          isIntegralQ rec3.currentWeather.visibility := by
  refine ⟨_, rfl, ?_, ?_, _, rfl, ?_, _, rfl, ?_⟩
  · exact (c6_rounding_amended.1 0 0 sampleOWMCurrent sampleOWMForecast _ rfl).1
  · exact (c6_rounding_amended.1 0 0 sampleOWMCurrent sampleOWMForecast _ rfl).2.2.2.1
  · exact (c6_rounding_amended.2.1 0 0 sampleWAPIResponse _ rfl).2.2.2.1
  · exact (c6_rounding_amended.2.2 0 0 sampleAccuLocation sampleAccuCurrent []
      sampleAccuForecast _ rfl).2.2.2.1

/-- C7 counterexample: the claim "daily has at most 10 entries for every
provider response" fails at a WeatherAPI response carrying eleven forecast
days — the adapter maps them all without clamping. -/
theorem c7_forecast_length_counterexample :
    ∃ rec, fetchWeatherAPI 0 0 elevenDayWAPIResponse = some rec ∧
      rec.dailyForecast.length = 11 := by
  refine ⟨_, rfl, ?_⟩
  have h : (elevenDayWAPIResponse.forecast.forecastday.enum.map
      (fun p => mkWAPIDaily p.1 p.2)).length = 11 := by
    rw [List.length_map, List.enum_length]
    show (List.replicate 11 sampleWAPIForecastDay).length = 11
    exact List.length_replicate 11 _
  exact h

/-- C7 amended: every adapter's hourly sequence has at most 24 entries; the
openweathermap adapter clamps its daily sequence to at most 10 entries, but
the weatherapi and accuweather adapters emit one daily entry per response
day with no clamp, so their daily lengths equal the response's day count. -/
theorem c7_forecast_lengths_amended :
    (∀ lat lon cur fc rec, fetchOpenWeatherMap lat lon cur fc = some rec →
      rec.hourlyForecast.length ≤ 24 ∧ rec.dailyForecast.length ≤ 10) ∧
    (∀ lat lon data rec, fetchWeatherAPI lat lon data = some rec →
      rec.hourlyForecast.length ≤ 24 ∧
      rec.dailyForecast.length = data.forecast.forecastday.length) ∧
    (∀ lat lon locRes curList fc rec, fetchAccuWeather lat lon locRes curList fc = some rec →
      rec.hourlyForecast.length ≤ 24 ∧
      rec.dailyForecast.length = fc.DailyForecasts.length) := by
  refine ⟨?_, ?_, ?_⟩
  · intro lat lon cur fc rec h
    unfold fetchOpenWeatherMap at h
    cases hw : cur.weather.head? with
    | none => rw [hw] at h; simp at h
    | some w0 =>
      rw [hw] at h
      cases hh : optionTraverse mkOWMHourly (fc.list.take 24) with
      | none => rw [hh] at h; simp at h
      | some hourly =>
        rw [hh] at h
        cases hd : optionTraverse (fun p => mkOWMDaily p.1 p.2)
            ((((fc.list.enum.filter (fun p => p.1 % 8 == 0)).map Prod.snd).take 10).enum) with
        | none => rw [hd] at h; simp at h
        | some daily =>
          rw [hd] at h
          simp only [Option.some.injEq] at h
          subst h
          constructor
          · show hourly.length ≤ 24
            rw [optionTraverse_length hh]
            exact List.length_take_le 24 _
          · show daily.length ≤ 10
            rw [optionTraverse_length hd, List.enum_length]
            exact List.length_take_le 10 _
  · intro lat lon data rec h
    unfold fetchWeatherAPI at h
    cases hw : data.forecast.forecastday.head? with
    | none => rw [hw] at h; simp at h
    | some fd0 =>
      rw [hw] at h
      simp only [Option.some.injEq] at h
      subst h
      constructor
      · show ((fd0.hour.take 24).map mkWAPIHour).length ≤ 24
        rw [List.length_map]
        exact List.length_take_le 24 _
      · show (data.forecast.forecastday.enum.map (fun p => mkWAPIDaily p.1 p.2)).length = _
        rw [List.length_map, List.enum_length]
  · intro lat lon locRes curList fc rec h
    unfold fetchAccuWeather at h
    cases hw : curList.head? with
    | none => rw [hw] at h; simp at h
    | some c =>
      rw [hw] at h
      simp only [Option.some.injEq] at h
      subst h
      constructor
      · show ([] : List HourlyPoint).length ≤ 24
        simp
      · show (fc.DailyForecasts.enum.map (fun p => mkAccuDaily p.1 p.2)).length = _
        rw [List.length_map, List.enum_length]

/-- Witness for the amended C7 at concrete provider responses for all three
adapters. -/
theorem c7_forecast_lengths_amended_witness :
    ∃ rec, fetchOpenWeatherMap 0 0 sampleOWMCurrent sampleOWMForecast = some rec ∧
      rec.hourlyForecast.length ≤ 24 ∧ rec.dailyForecast.length ≤ 10 ∧
      ∃ rec2, fetchWeatherAPI 0 0 sampleWAPIResponse = some rec2 ∧
        rec2.dailyForecast.length = sampleWAPIResponse.forecast.forecastday.length ∧
        ∃ rec3, fetchAccuWeather 0 0 sampleAccuLocation (sampleAccuCurrent :: [])
            sampleAccuForecast = some rec3 ∧
          rec3.hourlyForecast.length ≤ 24 := by
  refine ⟨_, rfl, ?_, ?_, _, rfl, ?_, _, rfl, ?_⟩
  · exact (c7_forecast_lengths_amended.1 0 0 sampleOWMCurrent sampleOWMForecast _ rfl).1
  · exact (c7_forecast_lengths_amended.1 0 0 sampleOWMCurrent sampleOWMForecast _ rfl).2
  · exact (c7_forecast_lengths_amended.2.1 0 0 sampleWAPIResponse _ rfl).2
  · exact (c7_forecast_lengths_amended.2.2 0 0 sampleAccuLocation (sampleAccuCurrent :: [])
      sampleAccuForecast _ rfl).1

/-- C8: the coordinate-proximity lookup returns a cached Location exactly when
some cached Location has both coordinate deltas below 0.01 degrees; querying
(40.7128, -74.0060) matches a stored Location at (40.7135, -74.0058) and does
not match one at (40.73, -74.02). -/
theorem c8_proximity (locations : List Location) (lat lon : ℚ) :
    ((getLocationByCoords locations lat lon).isSome = true ↔
      ∃ loc ∈ locations, |loc.latitude - lat| < 1/100 ∧ |loc.longitude - lon| < 1/100) ∧
    (∀ nearLoc : Location, nearLoc.latitude = 407135/10000 →
      nearLoc.longitude = -(740058/10000) →
      getLocationByCoords [nearLoc] (407128/10000) (-(740060/10000)) = some nearLoc) ∧
    (∀ farLoc : Location, farLoc.latitude = 4073/100 → farLoc.longitude = -(7402/100) →
      getLocationByCoords [farLoc] (407128/10000) (-(740060/10000)) = none) := by
  refine ⟨?_, ?_, ?_⟩
  · unfold getLocationByCoords
    rw [List.find?_isSome]
    constructor
    · rintro ⟨loc, hmem, hpred⟩
      rw [Bool.and_eq_true, decide_eq_true_eq, decide_eq_true_eq] at hpred
      exact ⟨loc, hmem, hpred⟩
    · rintro ⟨loc, hmem, h1, h2⟩
      refine ⟨loc, hmem, ?_⟩
      rw [Bool.and_eq_true, decide_eq_true_eq, decide_eq_true_eq]
      exact ⟨h1, h2⟩
  · intro nearLoc hlat hlon
    unfold getLocationByCoords
    apply List.find?_cons_of_pos
    rw [Bool.and_eq_true, decide_eq_true_eq, decide_eq_true_eq, hlat, hlon]
    constructor
    · rw [abs_lt]
      constructor <;> norm_num
    · rw [abs_lt]
      constructor <;> norm_num
  · intro farLoc hlat hlon
    unfold getLocationByCoords
    rw [List.find?_cons_of_neg, List.find?_nil]
    rw [Bool.and_eq_true, decide_eq_true_eq, decide_eq_true_eq, hlat, hlon]
    rintro ⟨h1, _⟩
    rw [abs_lt] at h1
    have := h1.2
    norm_num at this

/-- Witness for C8 at concrete cached Locations. -/
theorem c8_proximity_witness :
    getLocationByCoords [nearSample] (407128/10000) (-(740060/10000)) = some nearSample ∧
    getLocationByCoords [farSample] (407128/10000) (-(740060/10000)) = none :=
  ⟨(c8_proximity [] 0 0).2.1 nearSample rfl rfl,
   (c8_proximity [] 0 0).2.2 farSample rfl rfl⟩

/-- C9: when the geocoding call fails, the search route returns exactly the
cached Locations whose name, country or state contains the query text
case-insensitively, returns the empty sequence when none match, and — being a
total function into a list — never raises. -/
theorem c9_geocoding_fallback (e : String) (cached : List Location) (q : String) :
    (∀ loc, loc ∈ searchLocationsRoute (GeoOutcome.fail e) cached q ↔
      loc ∈ cached ∧ matchesQuery q loc) ∧
    ((∀ loc ∈ cached, ¬ matchesQuery q loc) →
      searchLocationsRoute (GeoOutcome.fail e) cached q = []) := by
  have hpred : ∀ loc : Location,
      (jsIncludes (jsToLower loc.name) (jsToLower q) ||
        (match loc.country with
         | some c => jsIncludes (jsToLower c) (jsToLower q)
         | none => false) ||
        (match loc.state with
         | some s => jsIncludes (jsToLower s) (jsToLower q)
         | none => false)) = true ↔ matchesQuery q loc := by
    intro loc
    rw [Bool.or_eq_true, Bool.or_eq_true]
    unfold matchesQuery jsIncludes
    rw [containsSub_iff]
    constructor
    · rintro ((h | h) | h)
      · exact Or.inl h
      · refine Or.inr (Or.inl ?_)
        cases hc : loc.country with
        | none => rw [hc] at h; simp at h
        | some c =>
          rw [hc] at h
          rw [containsSub_iff] at h
          exact ⟨c, rfl, h⟩
      · refine Or.inr (Or.inr ?_)
        cases hs : loc.state with
        | none => rw [hs] at h; simp at h
        | some s =>
          rw [hs] at h
          rw [containsSub_iff] at h
          exact ⟨s, rfl, h⟩
    · rintro (h | ⟨c, hc, h⟩ | ⟨s, hs, h⟩)
      · exact Or.inl (Or.inl h)
      · refine Or.inl (Or.inr ?_)
        rw [hc, containsSub_iff]
        exact h
      · refine Or.inr ?_
        rw [hs, containsSub_iff]
        exact h
  constructor
  · intro loc
    show loc ∈ searchLocations cached q ↔ _
    unfold searchLocations
    rw [List.mem_filter]
    exact and_congr_right (fun _ => hpred loc)
  · intro hnone
    show searchLocations cached q = []
    unfold searchLocations
    rw [List.filter_eq_nil_iff]
    intro loc hmem
    rw [hpred loc]
    exact hnone loc hmem

/-- Witness for C9: with the geocoder failing, "Spring" finds the cached
Springfield entry, and an empty cache yields the empty sequence. -/
theorem c9_geocoding_fallback_witness :
    springfieldLoc ∈ searchLocationsRoute (GeoOutcome.fail "boom") [springfieldLoc] "Spring" ∧
    searchLocationsRoute (GeoOutcome.fail "boom") [] "Spring" = [] := by
  constructor
  · exact ((c9_geocoding_fallback "boom" [springfieldLoc] "Spring").1 springfieldLoc).mpr
      ⟨by simp, Or.inl ⟨[], ['f','i','e','l','d'], by decide⟩⟩
  · exact (c9_geocoding_fallback "boom" [] "Spring").2 (by simp)

/-- C10: on the fallback path an empty query text matches every cached
Location, because the empty string is a substring of every name, so the
resolve returns the entire cached set. -/
theorem c10_empty_query (e : String) (cached : List Location) :
    searchLocationsRoute (GeoOutcome.fail e) cached "" = cached := by
  show searchLocations cached "" = cached
  unfold searchLocations
  rw [List.filter_eq_self]
  intro loc _
  have h1 : jsIncludes (jsToLower loc.name) (jsToLower "") = true := by
    unfold jsIncludes
    have : (jsToLower "").data = [] := rfl
    rw [this]
    exact containsSub_nil_left _
  rw [h1]
  rfl
